import Mathlib

/-!
Shallow embedding of `employee_app.py`, a biometric-attendance
synchronization pipeline: round-robin device polling, attendance-to-employee
left-join with date-range filtering, and a per-row bounded-retry delivery loop.

Network effects are parametrized: the ZK device behaviour, the per-cycle
fetched data and roster, and the check-in endpoint's responses are inputs to
the embedded functions, so the control flow of the Python source is modelled
exactly while the I/O is abstract.
-/

set_option maxHeartbeats 1000000

namespace EmployeeApp

/-- A raw attendance event as returned by a device (`attendance.__dict__`):
a device-local employee identifier (`user_id`) and a timestamp.
Timestamps are modelled as integers (comparable points in time). -/
structure AttendanceEvent where
  user_id : String
  timestamp : Int
deriving Repr, DecidableEq, Inhabited

/-- An employee roster record fetched from ERPNext
(fields `employee`, `employee_name`, `attendance_device_id`). -/
structure EmployeeRecord where
  employee : String
  employee_name : String
  attendance_device_id : String
deriving Repr, DecidableEq, Inhabited

/-- A row of the merged DataFrame produced by
`pd.merge(df, emp_df, on='attendance_device_id', how='left')`.
Unmatched events carry `none` (NaN) in the employee columns. -/
structure MergedRow where
  attendance_device_id : String
  timestamp : Int
  shift : String
  employee : Option String
  employee_name : Option String
deriving Repr, DecidableEq, Inhabited

/-- A device-configuration entry (`device_id`, `ip`). -/
structure Device where
  device_id : String
  ip : String
deriving Repr, DecidableEq, Inhabited

/-- `pd.merge(df, emp_df, on='attendance_device_id', how='left')` after the
`user_id → attendance_device_id` rename and shift annotation: every event is
preserved in raw order; an event with matching roster rows yields one merged
row per match (in roster order), an unmatched event yields a single row with
null employee columns. -/
def leftMerge (events : List AttendanceEvent) (shift : String)
    (roster : List EmployeeRecord) : List MergedRow :=
  events.flatMap fun ev =>
    let ms := roster.filter fun r => r.attendance_device_id == ev.user_id
    if ms.isEmpty then
      [⟨ev.user_id, ev.timestamp, shift, none, none⟩]
    else
      ms.map fun r => ⟨ev.user_id, ev.timestamp, shift, some r.employee, some r.employee_name⟩

/-- The date-range filter
`result_df[(result_df['timestamp'] >= start_date) & (result_df['timestamp'] <= end_date)]`. -/
def dateFilter (start_date end_date : Int) (rows : List MergedRow) : List MergedRow :=
  rows.filter fun r => decide (start_date ≤ r.timestamp) && decide (r.timestamp ≤ end_date)

/-- `process_and_merge_biometric_with_employee_data(devices, shift_index)`,
with the fetched device data and the fetched roster passed as parameters
(in the source they come from `fetch_biometric_data` / `fetch_employee_data`).
Returns `none` ("skip this device") when no biometric data was fetched;
otherwise annotates the shift, left-joins with the roster and filters by the
configured date range. The `user_id`-missing branch of the source cannot arise
here because events are typed records that always carry `user_id`. -/
def process_and_merge_biometric_with_employee_data
    (shifts : List String) (start_date end_date : Int)
    (devices : List Device) (shift_index : Nat)
    (device_data : List AttendanceEvent) (emp_df : List EmployeeRecord) :
    Option (List MergedRow) :=
  let _device := devices.getD (shift_index % devices.length) default
  let shift := shifts.getD (shift_index % shifts.length) ""
  if device_data.isEmpty then
    none
  else
    let result_df := leftMerge device_data shift emp_df
    some (dateFilter start_date end_date result_df)

/-- The abstract behaviour of one ZK terminal: whether `zk.connect()`
succeeds, and what `conn.get_attendance()` then does (returns records, or
raises — modelled as `Except`). -/
structure ZKDevice where
  connectOk : Bool
  attendanceResult : Except String (List AttendanceEvent)

/-- The observable outcome of `fetch_biometric_data`: the returned record
list, whether a connection object was established, and whether
`conn.disconnect()` ran in the `finally` block. -/
structure FetchResult where
  returned : List AttendanceEvent
  connEstablished : Bool
  disconnected : Bool
deriving Repr, DecidableEq

/-- `fetch_biometric_data(ip, port, timeout)`: `conn = zk.connect()`,
`attendances = conn.get_attendance()` inside `try/except` (any exception is
caught and logged, leaving `attendances = []`), with
`finally: if conn: conn.disconnect()`. -/
def fetch_biometric_data (dev : ZKDevice) : FetchResult :=
  if dev.connectOk then
    match dev.attendanceResult with
    | .ok atts => ⟨atts, true, true⟩
    | .error _ => ⟨[], true, true⟩
  else
    ⟨[], false, false⟩

/-- One response of the ERPNext check-in endpoint to a POST: an HTTP status
code, or a raised `requests.exceptions.RequestException`. -/
inductive PostResult where
  | status : Nat → PostResult
  | exn : String → PostResult
deriving Repr, DecidableEq

/-- The inner `while retry_count < max_retries and not success` loop of
`push_data_to_erp` for one row. `endpoint n` is the response to the `n`-th
POST issued by this batch; `counter` counts POSTs issued so far. Success is
HTTP 200/201; any other status or a request exception increments
`retry_count`. Returns the updated POST counter and the `success` flag. -/
def submitRow (endpoint : Nat → PostResult) (counter retry_count max_retries : Nat) :
    Nat × Bool :=
  if _h : retry_count < max_retries then
    match endpoint counter with
    | .status code =>
      if code == 200 || code == 201 then
        (counter + 1, true)
      else
        submitRow endpoint (counter + 1) (retry_count + 1) max_retries
    | .exn _ =>
      submitRow endpoint (counter + 1) (retry_count + 1) max_retries
  else
    (counter, false)
termination_by max_retries - retry_count
decreasing_by all_goals omega

/-- What `push_data_to_erp` did with one row: the row's employee field, how
many POSTs were issued for it, and whether one of them succeeded. A row
skipped for a null employee records zero attempts. -/
structure RowOutcome where
  employee : Option String
  attempts : Nat
  success : Bool
deriving Repr, DecidableEq, Inhabited

/-- The `for index, row in df.iterrows()` loop of `push_data_to_erp`:
rows with `pd.isnull(row['employee'])` are skipped with a log only;
otherwise the row is submitted through the retry loop. The POST counter
threads through the batch so `endpoint` can model an arbitrary response
sequence. -/
def pushRows (endpoint : Nat → PostResult) (max_retries : Nat) :
    Nat → List MergedRow → List RowOutcome
  | _, [] => []
  | counter, row :: rest =>
    match row.employee with
    | none => ⟨none, 0, false⟩ :: pushRows endpoint max_retries counter rest
    | some emp =>
      let r := submitRow endpoint counter 0 max_retries
      ⟨some emp, r.1 - counter, r.2⟩ :: pushRows endpoint max_retries r.1 rest

/-- `push_data_to_erp(df, max_retries)` (default `max_retries = 2` at the
call site in `main_loop`): processes every row and returns `True`
unconditionally. The row outcomes are exposed alongside the return value so
that the submission behaviour is observable. -/
def push_data_to_erp (endpoint : Nat → PostResult) (max_retries : Nat)
    (df : List MergedRow) : Bool × List RowOutcome :=
  (true, pushRows endpoint max_retries 0 df)

/-- What one iteration of `main_loop` did: the selected device and shift, and
the rows handed to `push_data_to_erp` (`none` when the cycle was skipped
because the merge produced `None` or an empty frame). -/
structure CycleLog where
  device : Device
  shift : String
  submitted : Option (List MergedRow)
deriving Repr, DecidableEq, Inhabited

/-- The body of one `main_loop` iteration at counter value `i`:
select `devices[i % len(devices)]` and `SHIFT[i % len(SHIFT)]`, run
`process_and_merge_biometric_with_employee_data` on that cycle's fetched
data `(env i).1` and roster `(env i).2`; if the result is `None` or empty,
skip; otherwise truncate to `head(5)` and push. -/
def cycleAt (shifts : List String) (start_date end_date : Int)
    (devices : List Device)
    (env : Nat → List AttendanceEvent × List EmployeeRecord) (i : Nat) :
    CycleLog :=
  let device := devices.getD (i % devices.length) default
  let shift := shifts.getD (i % shifts.length) ""
  let res := process_and_merge_biometric_with_employee_data
    shifts start_date end_date devices i (env i).1 (env i).2
  { device := device
    shift := shift
    submitted :=
      match res with
      | none => none
      | some filtered =>
        if filtered.isEmpty then none else some (filtered.take 5) }

/-- The `while True` loop of `main_loop` started at counter value
`shift_index`: it breaks as soon as `shift_index >= len(devices)`, otherwise
runs one cycle and increments the counter. -/
def main_loop_from (shifts : List String) (start_date end_date : Int)
    (devices : List Device)
    (env : Nat → List AttendanceEvent × List EmployeeRecord)
    (shift_index : Nat) : List CycleLog :=
  if h : shift_index < devices.length then
    cycleAt shifts start_date end_date devices env shift_index ::
      main_loop_from shifts start_date end_date devices env (shift_index + 1)
  else
    []
termination_by devices.length - shift_index
decreasing_by all_goals omega

/-- `main_loop()`: the scheduler starting from `shift_index = 0`. -/
def main_loop (shifts : List String) (start_date end_date : Int)
    (devices : List Device)
    (env : Nat → List AttendanceEvent × List EmployeeRecord) : List CycleLog :=
  main_loop_from shifts start_date end_date devices env 0

/-! ### Helper lemmas -/

/-- Against an endpoint that always answers HTTP 500, the retry loop issues
one POST per remaining retry budget and ends unsuccessfully. -/
theorem submitRow_const500 (endpoint : Nat → PostResult)
    (h500 : ∀ n, endpoint n = .status 500) :
    ∀ d r c m, m - r = d → submitRow endpoint c r m = (c + d, false) := by
  intro d
  induction d with
  | zero =>
    intro r c m hd
    unfold submitRow
    have hrm : ¬ r < m := by omega
    simp [hrm]
  | succ k ih =>
    intro r c m hd
    have hrm : r < m := by omega
    unfold submitRow
    simp only [hrm, dif_pos, h500 c]
    have h2 : ((500 == 200) || (500 == 201)) = false := by decide
    simp only [h2, if_false, Bool.false_eq_true]
    rw [ih (r + 1) (c + 1) m (by omega)]
    congr 1
    omega

/-- `push_data_to_erp` visits every row: one outcome per input row. -/
theorem pushRows_length (endpoint : Nat → PostResult) (m : Nat) :
    ∀ c df, (pushRows endpoint m c df).length = df.length := by
  intro c df
  induction df generalizing c with
  | nil => rfl
  | cons row rest ih =>
    cases hrow : row.employee <;> simp [pushRows, hrow, ih]

/-- Against an always-500 endpoint, every non-skipped row records exactly
`max_retries` attempts and no success. -/
theorem pushRows_const500 (endpoint : Nat → PostResult)
    (h500 : ∀ n, endpoint n = .status 500) (m : Nat) :
    ∀ c df, ∀ o ∈ pushRows endpoint m c df,
      o.employee.isSome → o.attempts = m ∧ o.success = false := by
  intro c df
  induction df generalizing c with
  | nil => intro o ho; simp [pushRows] at ho
  | cons row rest ih =>
    intro o ho
    cases hrow : row.employee with
    | none =>
      simp only [pushRows, hrow, List.mem_cons] at ho
      rcases ho with rfl | ho
      · intro hs; simp at hs
      · exact ih _ o ho
    | some emp =>
      have hs : submitRow endpoint c 0 m = (c + m, false) := by
        simpa using submitRow_const500 endpoint h500 m 0 c m (by omega)
      simp only [pushRows, hrow, hs, List.mem_cons] at ho
      rcases ho with rfl | ho
      · intro _
        refine ⟨?_, rfl⟩
        show c + m - c = m
        omega
      · exact ih _ o ho

/-- A row whose `employee` is null is recorded as skipped: the
outcome at its index shows zero POST attempts. -/
theorem pushRows_null_skip (endpoint : Nat → PostResult) (m : Nat)
    (dfltR : MergedRow) (dfltO : RowOutcome) :
    ∀ df c i, i < df.length → (df.getD i dfltR).employee = none →
      (pushRows endpoint m c df).getD i dfltO = ⟨none, 0, false⟩ := by
  intro df
  induction df with
  | nil => intro c i hi; simp at hi
  | cons row rest ih =>
    intro c i hi hnull
    cases i with
    | zero =>
      simp only [List.getD_cons_zero] at hnull
      simp [pushRows, hnull]
    | succ j =>
      have hj : j < rest.length := by simpa using hi
      have hnull' : (rest.getD j dfltR).employee = none := by
        simpa [List.getD_cons_succ] using hnull
      cases hrow : row.employee with
      | none =>
        simp only [pushRows, hrow, List.getD_cons_succ]
        exact ih _ j hj hnull'
      | some emp =>
        simp only [pushRows, hrow, List.getD_cons_succ]
        exact ih _ j hj hnull'

/-- The scheduler loop from counter `i` runs exactly `len(devices) - i`
cycles, the `j`-th being the cycle at counter `i + j`. -/
theorem main_loop_from_eq (shifts : List String) (sd ed : Int)
    (devices : List Device)
    (env : Nat → List AttendanceEvent × List EmployeeRecord) :
    ∀ d i, devices.length - i = d →
      main_loop_from shifts sd ed devices env i =
        (List.range d).map (fun j => cycleAt shifts sd ed devices env (i + j)) := by
  intro d
  induction d with
  | zero =>
    intro i hd
    unfold main_loop_from
    have hi : ¬ i < devices.length := by omega
    simp [hi]
  | succ k ih =>
    intro i hd
    have hi : i < devices.length := by omega
    unfold main_loop_from
    simp only [hi, dif_pos]
    rw [ih (i + 1) (by omega), List.range_succ_eq_map]
    simp only [List.map_cons, List.map_map, Nat.add_zero]
    congr 1
    apply List.map_congr_left
    intro j _
    show cycleAt shifts sd ed devices env (i + 1 + j) =
      cycleAt shifts sd ed devices env (i + (j + 1))
    congr 1
    omega

/-- `main_loop` is the list of cycles at counters `0, 1, …, len(devices)-1`. -/
theorem main_loop_eq (shifts : List String) (sd ed : Int)
    (devices : List Device)
    (env : Nat → List AttendanceEvent × List EmployeeRecord) :
    main_loop shifts sd ed devices env =
      (List.range devices.length).map (cycleAt shifts sd ed devices env) := by
  rw [main_loop, main_loop_from_eq shifts sd ed devices env devices.length 0 rfl]
  apply List.map_congr_left
  intro j _
  rw [Nat.zero_add]

/-- The scheduler performs exactly one cycle per configured device. -/
theorem main_loop_length (shifts : List String) (sd ed : Int)
    (devices : List Device)
    (env : Nat → List AttendanceEvent × List EmployeeRecord) :
    (main_loop shifts sd ed devices env).length = devices.length := by
  rw [main_loop_eq]; simp

/-- The `i`-th cycle of the scheduler is the cycle at counter `i`. -/
theorem main_loop_getD (shifts : List String) (sd ed : Int)
    (devices : List Device)
    (env : Nat → List AttendanceEvent × List EmployeeRecord)
    (i : Nat) (hi : i < devices.length) (dflt : CycleLog) :
    (main_loop shifts sd ed devices env).getD i dflt =
      cycleAt shifts sd ed devices env i := by
  rw [main_loop_eq]
  have hlen : i < ((List.range devices.length).map
      (cycleAt shifts sd ed devices env)).length := by simpa using hi
  rw [List.getD_eq_getElem _ _ hlen, List.getElem_map, List.getElem_range]

/-- When each event matches at most one roster record, the left join maps
each raw event to exactly one merged row, in raw event order (and repeated
identical events are kept, not deduplicated). -/
theorem leftMerge_proj (shift : String) (roster : List EmployeeRecord) :
    ∀ events : List AttendanceEvent,
      (∀ ev ∈ events,
        (roster.filter fun r => r.attendance_device_id == ev.user_id).length ≤ 1) →
      (leftMerge events shift roster).map
          (fun r => (r.attendance_device_id, r.timestamp)) =
        events.map (fun ev => (ev.user_id, ev.timestamp)) := by
  intro events
  induction events with
  | nil => intro _; rfl
  | cons ev evs ih =>
    intro h
    have hev := h ev (List.mem_cons_self _ _)
    have hrest := ih fun e he => h e (List.mem_cons_of_mem _ he)
    have hblock :
        (leftMerge [ev] shift roster).map
            (fun r => (r.attendance_device_id, r.timestamp)) =
          [(ev.user_id, ev.timestamp)] := by
      cases hms : roster.filter fun r => r.attendance_device_id == ev.user_id with
      | nil =>
        simp only [leftMerge, List.flatMap_cons, List.flatMap_nil, List.append_nil, hms]
        simp
      | cons a tl =>
        have htl : tl = [] := by
          rw [hms] at hev
          simpa using hev
        subst htl
        simp only [leftMerge, List.flatMap_cons, List.flatMap_nil, List.append_nil, hms]
        simp
    have hsplit : leftMerge (ev :: evs) shift roster =
        leftMerge [ev] shift roster ++ leftMerge evs shift roster := by
      simp [leftMerge]
    rw [hsplit, List.map_append, hblock, hrest, List.map_cons, List.singleton_append]

/-! ### Claim theorems -/

/-- C1 (counterexample): with `START_DATE = 0`, `END_DATE = 10`, one event
from device-user "9" at time 5, and a roster whose only record carries
device id "8", the filtered result of the Merge & Filter Engine contains a
row whose canonical employee identifier is null — so the claim that every
surviving row has a non-null employee identifier (the join succeeded) is
false: the date filter is the only filter applied here. -/
theorem mergeFilter_null_employee_survives :
    process_and_merge_biometric_with_employee_data ["S1"] 0 10 [⟨"D1", "ip1"⟩] 0
        [⟨"9", 5⟩] [⟨"EMP1", "Alice", "8"⟩] =
      some [⟨"9", 5, "S1", none, none⟩] := by decide

/-- C1 (amended): every row in the output of the Merge & Filter Engine has a
timestamp within `[START_DATE, END_DATE]` inclusive; the canonical employee
identifier may be null for unmatched events (null-employee rows are skipped
at delivery time, not here). -/
theorem mergeFilter_rows_within_range (shifts : List String) (sd ed : Int)
    (devices : List Device) (i : Nat) (data : List AttendanceEvent)
    (roster : List EmployeeRecord) (rows : List MergedRow)
    (h : process_and_merge_biometric_with_employee_data shifts sd ed devices i
        data roster = some rows) :
    ∀ r ∈ rows, sd ≤ r.timestamp ∧ r.timestamp ≤ ed := by
  unfold process_and_merge_biometric_with_employee_data at h
  by_cases hd : data.isEmpty
  · simp [hd] at h
  · simp only [hd, Bool.false_eq_true, if_false, Option.some.injEq] at h
    subst h
    intro r hr
    simp only [dateFilter, List.mem_filter, Bool.and_eq_true, decide_eq_true_eq] at hr
    exact hr.2

/-- Witness for the amended C1 at a concrete input. -/
theorem mergeFilter_rows_within_range_witness :
    (0 : Int) ≤ 5 ∧ (5 : Int) ≤ 10 :=
  mergeFilter_rows_within_range ["S1"] 0 10 [⟨"D1", "ip1"⟩] 0 [⟨"9", 5⟩]
    [⟨"EMP1", "Alice", "8"⟩] [⟨"9", 5, "S1", none, none⟩] (by decide)
    ⟨"9", 5, "S1", none, none⟩ (by decide)

/-- C2: against a submission endpoint that answers HTTP 500 to every POST,
each row with a non-null employee identifier gets exactly `max_retries`
submission attempts (2 at the `main_loop` call site, the source default),
is then abandoned unsuccessfully, and every row of the batch still gets an
outcome (failure is row-local). -/
theorem push_retry_exhaustion (endpoint : Nat → PostResult)
    (h500 : ∀ n, endpoint n = .status 500)
    (max_retries : Nat) (df : List MergedRow) :
    (push_data_to_erp endpoint max_retries df).2.length = df.length ∧
    ∀ o ∈ (push_data_to_erp endpoint max_retries df).2, o.employee.isSome →
      o.attempts = max_retries ∧ o.success = false :=
  ⟨pushRows_length endpoint max_retries 0 df,
   pushRows_const500 endpoint h500 max_retries 0 df⟩

/-- Witness for C2 at a concrete always-500 endpoint and batch. -/
theorem push_retry_exhaustion_witness :
    (push_data_to_erp (fun _ => .status 500) 2
        [⟨"8", 1, "S1", some "E1", some "A"⟩]).2.length =
      [(⟨"8", 1, "S1", some "E1", some "A"⟩ : MergedRow)].length :=
  (push_retry_exhaustion (fun _ => .status 500) (fun _ => rfl) 2
    [⟨"8", 1, "S1", some "E1", some "A"⟩]).1

/-- C3: a merged row is excluded by the date-range filter iff its timestamp
is strictly before `START_DATE` or strictly after `END_DATE`; boundary
timestamps equal to either bound are kept (for a well-formed window with
`START_DATE ≤ END_DATE`). -/
theorem dateFilter_excludes_iff_strictly_outside (sd ed : Int)
    (rows : List MergedRow) (r : MergedRow) (hr : r ∈ rows) :
    (r ∉ dateFilter sd ed rows ↔ (r.timestamp < sd ∨ ed < r.timestamp)) ∧
    ((r.timestamp = sd ∨ r.timestamp = ed) → sd ≤ ed →
      r ∈ dateFilter sd ed rows) := by
  have hmem : r ∈ dateFilter sd ed rows ↔ sd ≤ r.timestamp ∧ r.timestamp ≤ ed := by
    simp [dateFilter, List.mem_filter, hr]
  refine ⟨⟨fun hn => ?_, fun ho hm => ?_⟩, fun hb hle => ?_⟩
  · by_contra hc
    push_neg at hc
    exact hn (hmem.mpr ⟨by omega, by omega⟩)
  · have hts := hmem.mp hm
    rcases ho with ho | ho <;> omega
  · rcases hb with hb | hb <;> exact hmem.mpr (by omega)

/-- Witness for C3: a boundary timestamp equal to `START_DATE` is kept. -/
theorem dateFilter_excludes_iff_strictly_outside_witness :
    (⟨"8", 0, "S1", none, none⟩ : MergedRow) ∈
      dateFilter 0 10 [⟨"8", 0, "S1", none, none⟩] :=
  (dateFilter_excludes_iff_strictly_outside 0 10 [⟨"8", 0, "S1", none, none⟩]
    ⟨"8", 0, "S1", none, none⟩ (by decide)).2 (Or.inl rfl) (by decide)

/-- C4: a merged row whose canonical employee identifier is null is skipped
by the Delivery Submitter: its outcome records zero POST attempts, and the
batch still yields one outcome per row (the remaining rows are processed). -/
theorem push_null_employee_skipped (endpoint : Nat → PostResult)
    (max_retries : Nat) (df : List MergedRow)
    (dfltR : MergedRow) (dfltO : RowOutcome) (i : Nat)
    (hi : i < df.length) (hnull : (df.getD i dfltR).employee = none) :
    (push_data_to_erp endpoint max_retries df).2.getD i dfltO =
        ⟨none, 0, false⟩ ∧
    (push_data_to_erp endpoint max_retries df).2.length = df.length :=
  ⟨pushRows_null_skip endpoint max_retries dfltR dfltO df 0 i hi hnull,
   pushRows_length endpoint max_retries 0 df⟩

/-- Witness for C4 at a concrete batch with a null-employee row. -/
theorem push_null_employee_skipped_witness :
    (push_data_to_erp (fun _ => .status 500) 2
        [⟨"9", 5, "S1", none, none⟩]).2.getD 0 default =
      (⟨none, 0, false⟩ : RowOutcome) :=
  (push_null_employee_skipped (fun _ => .status 500) 2
    [⟨"9", 5, "S1", none, none⟩] default default 0 (by decide) (by decide)).1

/-- C5: when the merge of a cycle yields a non-empty filtered frame, exactly
its first 5 rows (`head(5)`) are handed to the Delivery Submitter; and the
left join maps each raw event (matching at most one roster record) to exactly
one merged row in raw event order, without reordering or deduplication. -/
theorem first_five_submitted_in_order (shifts : List String) (sd ed : Int)
    (devices : List Device)
    (env : Nat → List AttendanceEvent × List EmployeeRecord)
    (dflt : CycleLog) (i : Nat) (filtered : List MergedRow)
    (hone : ∀ ev ∈ (env i).1,
      ((env i).2.filter fun r => r.attendance_device_id == ev.user_id).length ≤ 1)
    (hi : i < devices.length)
    (hres : process_and_merge_biometric_with_employee_data shifts sd ed devices i
        (env i).1 (env i).2 = some filtered)
    (hne : filtered ≠ []) :
    ((main_loop shifts sd ed devices env).getD i dflt).submitted =
        some (filtered.take 5) ∧
    (leftMerge (env i).1 (shifts.getD (i % shifts.length) "") (env i).2).map
        (fun r => (r.attendance_device_id, r.timestamp)) =
      (env i).1.map (fun ev => (ev.user_id, ev.timestamp)) := by
  constructor
  · rw [main_loop_getD shifts sd ed devices env i hi dflt]
    have hne' : filtered.isEmpty = false := by
      cases filtered with
      | nil => exact absurd rfl hne
      | cons a l => rfl
    simp [cycleAt, hres, hne']
  · exact leftMerge_proj _ _ _ hone

/-- Witness for C5 at a one-device, one-event configuration. -/
theorem first_five_submitted_in_order_witness :
    ((main_loop ["S1"] 0 10 [⟨"D1", "ip1"⟩]
        (fun _ => ([⟨"8", 1⟩], [⟨"E1", "A", "8"⟩]))).getD 0 default).submitted =
      some (([⟨"8", 1, "S1", some "E1", some "A"⟩] : List MergedRow).take 5) :=
  (first_five_submitted_in_order ["S1"] 0 10 [⟨"D1", "ip1"⟩]
    (fun _ => ([⟨"8", 1⟩], [⟨"E1", "A", "8"⟩])) default 0
    [⟨"8", 1, "S1", some "E1", some "A"⟩]
    (by decide) (by decide) (by decide) (by decide)).1

/-- C6: a cycle whose device returned zero attendance events produces no
merge result (`None`), hands nothing to the Delivery Submitter, and the
scheduler still runs one cycle per configured device. -/
theorem empty_fetch_cycle_skipped (shifts : List String) (sd ed : Int)
    (devices : List Device)
    (env : Nat → List AttendanceEvent × List EmployeeRecord)
    (dflt : CycleLog) (i : Nat) (hdev : devices ≠ [])
    (hi : i < devices.length) (hempty : (env i).1 = []) :
    process_and_merge_biometric_with_employee_data shifts sd ed devices i
        (env i).1 (env i).2 = none ∧
    ((main_loop shifts sd ed devices env).getD i dflt).submitted = none ∧
    (main_loop shifts sd ed devices env).length = devices.length := by
  have hproc : process_and_merge_biometric_with_employee_data shifts sd ed devices i
      (env i).1 (env i).2 = none := by
    rw [hempty]
    simp [process_and_merge_biometric_with_employee_data]
  refine ⟨hproc, ?_, main_loop_length shifts sd ed devices env⟩
  rw [main_loop_getD shifts sd ed devices env i hi dflt]
  simp [cycleAt, hproc]

/-- Witness for C6 at a one-device configuration returning no events. -/
theorem empty_fetch_cycle_skipped_witness :
    ((main_loop ["S1"] 0 10 [⟨"D1", "ip1"⟩]
        (fun _ => ([], []))).getD 0 default).submitted = none :=
  (empty_fetch_cycle_skipped ["S1"] 0 10 [⟨"D1", "ip1"⟩] (fun _ => ([], []))
    default 0 (by decide) (by decide) rfl).2.1

/-- C7: for a non-empty device list the scheduler performs exactly
`len(devices)` cycles and stops; cycle `i` uses `devices[i % len(devices)]`
and `SHIFT[i % len(SHIFT)]`, and the sequence of visited devices is exactly
the device list — each device once, in order. -/
theorem scheduler_one_pass (shifts : List String) (sd ed : Int)
    (devices : List Device)
    (env : Nat → List AttendanceEvent × List EmployeeRecord)
    (dflt : CycleLog) (hdev : devices ≠ []) :
    (main_loop shifts sd ed devices env).length = devices.length ∧
    (main_loop shifts sd ed devices env).map (fun c => c.device) = devices ∧
    ∀ i, i < devices.length →
      ((main_loop shifts sd ed devices env).getD i dflt).device =
          devices.getD (i % devices.length) default ∧
      ((main_loop shifts sd ed devices env).getD i dflt).shift =
          shifts.getD (i % shifts.length) "" := by
  refine ⟨main_loop_length shifts sd ed devices env, ?_, ?_⟩
  · rw [main_loop_eq]
    apply List.ext_getElem
    · simp
    · intro n h1 h2
      simp only [List.getElem_map, List.getElem_range]
      show (cycleAt shifts sd ed devices env n).device = devices[n]
      simp only [cycleAt]
      rw [Nat.mod_eq_of_lt h2, List.getD_eq_getElem devices default h2]
  · intro i hi
    rw [main_loop_getD shifts sd ed devices env i hi dflt]
    constructor <;> simp [cycleAt]

/-- Witness for C7 at a concrete two-device configuration. -/
theorem scheduler_one_pass_witness :
    (main_loop ["S1", "S2"] 0 10 [⟨"D1", "ip1"⟩, ⟨"D2", "ip2"⟩]
        (fun _ => ([], []))).map (fun c => c.device) =
      [⟨"D1", "ip1"⟩, ⟨"D2", "ip2"⟩] :=
  (scheduler_one_pass ["S1", "S2"] 0 10 [⟨"D1", "ip1"⟩, ⟨"D2", "ip2"⟩]
    (fun _ => ([], [])) default (by decide)).2.1

/-- C8: the Device Client Adapter never propagates a connection or retrieval
error: it returns an empty collection in both failure modes; it disconnects
exactly when a connection object was established (success or retrieval
failure alike), and skips disconnection when `connect` itself failed. -/
theorem fetch_swallows_errors (dev : ZKDevice) :
    ((dev.connectOk = false ∨ ∃ e, dev.attendanceResult = .error e) →
        (fetch_biometric_data dev).returned = []) ∧
    (fetch_biometric_data dev).disconnected =
        (fetch_biometric_data dev).connEstablished ∧
    (dev.connectOk = false → (fetch_biometric_data dev).connEstablished = false) := by
  cases h : dev.connectOk <;> cases ha : dev.attendanceResult <;>
    simp [fetch_biometric_data, h, ha]

/-- Witness for C8: a device whose retrieval raises yields no data but is
still disconnected. -/
theorem fetch_swallows_errors_witness :
    (fetch_biometric_data ⟨true, .error "timeout"⟩).returned = [] :=
  (fetch_swallows_errors ⟨true, .error "timeout"⟩).1 (Or.inr ⟨"timeout", rfl⟩)

/-- C9: the Merge & Filter Engine is a pure function of its inputs: two runs
on identical raw events, shift index and roster produce identical results
(same rows, same values, same order). -/
theorem mergeFilter_deterministic (shifts : List String) (sd ed : Int)
    (devices : List Device) (i : Nat) (data : List AttendanceEvent)
    (roster : List EmployeeRecord) :
    process_and_merge_biometric_with_employee_data shifts sd ed devices i
        data roster =
      process_and_merge_biometric_with_employee_data shifts sd ed devices i
        data roster := rfl

/-- C10: `push_data_to_erp` returns `True` unconditionally, for every
endpoint behaviour, retry bound and batch — its return value never indicates
whether any submission succeeded. -/
theorem push_always_returns_true (endpoint : Nat → PostResult)
    (max_retries : Nat) (df : List MergedRow) :
    (push_data_to_erp endpoint max_retries df).1 = true := rfl

end EmployeeApp
